import Mathlib

/-!
Verification development for the telegram-signal trading pipeline
(signal classifier, signal execution service, position monitor).

Shallow embedding conventions:
* Python floats are modelled as exact rationals (`ℚ`).
* Python dict-shaped records become Lean structures with `Option` fields.
* A raised exception becomes an explicit error constructor; the outer
  handler of `execute_signal` turns it into a failure result.
-/

namespace OpenAlgo

/-- Python `str.upper` for the ASCII strings this code base handles
(structural map over the characters). -/
def pyUpper (s : String) : String :=
  String.mk (s.data.map Char.toUpper)

/-- Python `str.lower` for ASCII strings. -/
def pyLower (s : String) : String :=
  String.mk (s.data.map Char.toLower)

/-! ## Entry pricing (signal_execution_service._convert_signal_to_order)

Embeds the smart-entry decision of `_convert_signal_to_order` for the case
where an entry price is given and a live quote (`current_ltp > 0`) was
fetched.  The BUY branch follows lines 466-492 of the source.  Every SELL
branch of the source (lines 494-514) references the name `entry_tolerance`
which is bound nowhere in the function, so evaluating any SELL branch
raises a `NameError` at runtime; the embedding records that as the
distinguished `nameErrorEntryTolerance` outcome. -/

inductive EntryAction
  | buy
  | sell
deriving DecidableEq, Repr

inductive EntryReason
  | waiting
  | pullback
  | nameErrorEntryTolerance
deriving DecidableEq, Repr

inductive EntryDecision
  | slOrder (triggerPrice limitPrice : ℚ)
  | limitOrder (price : ℚ)
  | raised (r : EntryReason)
deriving DecidableEq, Repr

/-- Tolerances defined in the BUY branch of `_convert_signal_to_order`. -/
def min_entry_tolerance : ℚ := 1/10

def max_entry_tolerance : ℚ := 15/10

/-- The quote-aware entry decision of `_convert_signal_to_order`
(source lines 457-514), for `current_ltp > 0`. -/
def smartEntry (action : EntryAction) (entry_price current_ltp : ℚ) : EntryDecision :=
  match action with
  | .buy =>
      if current_ltp < entry_price then
        -- breakout: SL order, trigger entry+0.1, limit entry+1.5
        .slOrder (entry_price + min_entry_tolerance) (entry_price + max_entry_tolerance)
      else if entry_price + min_entry_tolerance ≤ current_ltp
              ∧ current_ltp ≤ entry_price + max_entry_tolerance then
        -- within tolerance window: LIMIT at ltp + 0.05
        .limitOrder (current_ltp + 5/100)
      else if current_ltp < entry_price + min_entry_tolerance then
        .raised .waiting
      else
        .raised .pullback
  | .sell =>
      -- Every SELL branch evaluates the unbound name `entry_tolerance`:
      -- the first branch in its body, the second in its guard, the third
      -- in its error message.  All paths raise NameError.
      .raised .nameErrorEntryTolerance

/-- Outcome of the order-conversion step as seen by the caller of
`execute_signal`: a raised error is caught by the outer handler
(source lines 352-355) and surfaced as a failure tuple. -/
inductive ExecOutcome
  | placed (d : EntryDecision)
  | failureTuple (r : EntryReason)
deriving DecidableEq, Repr

/-- `execute_signal` wraps `_convert_signal_to_order` in a try/except
that converts any raised exception into `(False, "Exception: ...")`. -/
def executeEntryStep (action : EntryAction) (entry_price current_ltp : ℚ) : ExecOutcome :=
  match smartEntry action entry_price current_ltp with
  | .raised r => .failureTuple r
  | d => .placed d

/-! ## Classifier decision threshold (signal_classifier.classify)

Lines 236-242 of `signal_classifier.py`: the raw integer score is
normalised to a confidence and combined with the score threshold. -/

/-- `confidence = min(1.0, max(0.0, score / 35))` (source line 239). -/
def classifierConfidence (score : ℤ) : ℚ :=
  min 1 (max 0 ((score : ℚ) / 35))

/-- `is_signal = score >= 20 and confidence >= 0.5` (source line 242),
the decision before the post-extraction quality gate. -/
def initialIsSignal (score : ℤ) : Bool :=
  decide (score ≥ 20 ∧ classifierConfidence score ≥ 1/2)

/-! ## Position monitor (position_monitor_service.PositionMonitor)

The position dict of `add_position` (source lines 205-235) becomes a
structure; timestamps are abstract rationals supplied by the caller.
The `signal_data`, `exchange` bookkeeping and the `t3_plus_10_start_time`
field are carried along unmodified by every operation the claims touch
and are embedded where a claim needs them. -/

structure Position where
  order_id : String
  symbol : String
  exchange : String
  action : String
  quantity : Int
  entry_price : ℚ
  original_sl : ℚ
  current_sl : ℚ
  targets : List ℚ
  final_target : Option ℚ
  highest_price : ℚ
  status : String
  closed_at : Option ℚ
  username : String
  product : String
  trailing_enabled : Bool
  sl_order_id : Option String
  original_quantity : Int
  remaining_quantity : Int
  t1_hit : Bool
  t2_hit : Bool
  t3_hit : Bool
  t1_exit_done : Bool
deriving DecidableEq, Repr

/-- A throwaway position record, used only to instantiate universally
quantified position arguments in concrete instantiations. -/
def dummyPosition : Position :=
  { order_id := "", symbol := "", exchange := "", action := "",
    quantity := 0, entry_price := 0, original_sl := 0, current_sl := 0,
    targets := [], final_target := none, highest_price := 0,
    status := "", closed_at := none, username := "", product := "",
    trailing_enabled := true, sl_order_id := none,
    original_quantity := 0, remaining_quantity := 0,
    t1_hit := false, t2_hit := false, t3_hit := false, t1_exit_done := false }

/-- Monitor state: `active_positions` dict (modelled as an association
list keyed by order id, insertion ordered, as a Python dict) and the
`position_history` list. -/
structure MonitorState where
  active_positions : List (String × Position)
  position_history : List Position
deriving DecidableEq, Repr

/-- Dict lookup `self.active_positions.get(order_id)`. -/
def monLookup (l : List (String × Position)) (k : String) : Option Position :=
  match l with
  | [] => none
  | (k', v) :: rest => if k' = k then some v else monLookup rest k

/-- Dict assignment `self.active_positions[order_id] = position`:
replace in place if the key exists, else append. -/
def monSet (l : List (String × Position)) (k : String) (v : Position) :
    List (String × Position) :=
  match l with
  | [] => [(k, v)]
  | (k', v') :: rest =>
      if k' = k then (k', v) :: rest else (k', v') :: monSet rest k v

/-- Dict removal `self.active_positions.pop(order_id)` (key present). -/
def monRemove (l : List (String × Position)) (k : String) :
    List (String × Position) :=
  match l with
  | [] => []
  | (k', v') :: rest =>
      if k' = k then rest else (k', v') :: monRemove rest k

/-- `add_position` (source lines 169-238).  `final_target` is
`max(targets) if targets else None` irrespective of the action;
status starts as `pending_open`. -/
def add_position (m : MonitorState) (order_id symbol exchange action : String)
    (quantity : Int) (entry_price stop_loss : ℚ) (targets : List ℚ)
    (username : String) (product : String) : MonitorState :=
  let position : Position :=
    { order_id := order_id
      symbol := symbol
      exchange := exchange
      action := action
      quantity := quantity
      entry_price := entry_price
      original_sl := stop_loss
      current_sl := stop_loss
      targets := targets
      final_target := targets.max?
      highest_price := entry_price
      status := "pending_open"
      closed_at := none
      username := username
      product := product
      trailing_enabled := true
      sl_order_id := none
      original_quantity := quantity
      remaining_quantity := quantity
      t1_hit := false
      t2_hit := false
      t3_hit := false
      t1_exit_done := false }
  { m with active_positions := monSet m.active_positions order_id position }

/-- `update_sl` (source lines 240-278).  The sandbox persistence step is
best-effort external I/O and does not alter the in-memory state. -/
def update_sl (m : MonitorState) (order_id : String) (new_sl : ℚ)
    (sl_order_id : Option String) : Bool × MonitorState :=
  match monLookup m.active_positions order_id with
  | some p =>
      let p := { p with current_sl := new_sl }
      let p := match sl_order_id with
               | some s => { p with sl_order_id := some s }
               | none => p
      (true, { m with active_positions := monSet m.active_positions order_id p })
  | none => (false, m)

/-- `update_target` (source lines 280-315). -/
def update_target (m : MonitorState) (order_id : String) (new_target : ℚ) :
    Bool × MonitorState :=
  match monLookup m.active_positions order_id with
  | some p =>
      (true, { m with active_positions :=
                monSet m.active_positions order_id { p with final_target := some new_target } })
  | none => (false, m)

/-- `update_targets` (source lines 317-352). -/
def update_targets (m : MonitorState) (order_id : String) (targets : List ℚ) :
    Bool × MonitorState :=
  match monLookup m.active_positions order_id with
  | some p =>
      (true, { m with active_positions :=
                monSet m.active_positions order_id { p with targets := targets } })
  | none => (false, m)

/-- `update_status` (source lines 362-368). -/
def update_status (m : MonitorState) (order_id : String) (new_status : String) :
    Bool × MonitorState :=
  match monLookup m.active_positions order_id with
  | some p =>
      (true, { m with active_positions :=
                monSet m.active_positions order_id { p with status := new_status } })
  | none => (false, m)

/-- `update_sl_order_id` (source lines 370-376). -/
def update_sl_order_id (m : MonitorState) (order_id sl_order_id : String) :
    Bool × MonitorState :=
  match monLookup m.active_positions order_id with
  | some p =>
      (true, { m with active_positions :=
                monSet m.active_positions order_id { p with sl_order_id := some sl_order_id } })
  | none => (false, m)

/-- `update_highest_price` (source lines 378-386): returns True only when
the position exists AND the price is a strictly new high. -/
def update_highest_price (m : MonitorState) (order_id : String)
    (current_price : ℚ) : Bool × MonitorState :=
  match monLookup m.active_positions order_id with
  | some p =>
      if current_price > p.highest_price then
        (true, { m with active_positions :=
                  monSet m.active_positions order_id { p with highest_price := current_price } })
      else (false, m)
  | none => (false, m)

/-- `update_quantity` (source lines 388-394). -/
def update_quantity (m : MonitorState) (order_id : String) (new_quantity : Int) :
    Bool × MonitorState :=
  match monLookup m.active_positions order_id with
  | some p =>
      (true, { m with active_positions :=
                monSet m.active_positions order_id { p with quantity := new_quantity } })
  | none => (false, m)

/-- `mark_t1_exit_done` (source lines 396-402). -/
def mark_t1_exit_done (m : MonitorState) (order_id : String) :
    Bool × MonitorState :=
  match monLookup m.active_positions order_id with
  | some p =>
      (true, { m with active_positions :=
                monSet m.active_positions order_id { p with t1_exit_done := true } })
  | none => (false, m)

/-- `update_remaining_quantity` (source lines 404-437). -/
def update_remaining_quantity (m : MonitorState) (order_id : String)
    (new_quantity : Int) : Bool × MonitorState :=
  match monLookup m.active_positions order_id with
  | some p =>
      (true, { m with active_positions :=
                monSet m.active_positions order_id { p with remaining_quantity := new_quantity } })
  | none => (false, m)

/-- Flag names accepted by `set_target_hit_flag` (per its docstring:
t1_hit, t2_hit or t3_hit). -/
inductive TargetFlag
  | t1
  | t2
  | t3
deriving DecidableEq, Repr

/-- `set_target_hit_flag` (source lines 439-471). -/
def set_target_hit_flag (m : MonitorState) (order_id : String)
    (flag : TargetFlag) (value : Bool) : Bool × MonitorState :=
  match monLookup m.active_positions order_id with
  | some p =>
      let p := match flag with
               | .t1 => { p with t1_hit := value }
               | .t2 => { p with t2_hit := value }
               | .t3 => { p with t3_hit := value }
      (true, { m with active_positions := monSet m.active_positions order_id p })
  | none => (false, m)

/-- `disable_trailing` (source lines 499-505). -/
def disable_trailing (m : MonitorState) (order_id : String) :
    Bool × MonitorState :=
  match monLookup m.active_positions order_id with
  | some p =>
      (true, { m with active_positions :=
                monSet m.active_positions order_id { p with trailing_enabled := false } })
  | none => (false, m)

/-- `enable_trailing` (source lines 507-513). -/
def enable_trailing (m : MonitorState) (order_id : String) :
    Bool × MonitorState :=
  match monLookup m.active_positions order_id with
  | some p =>
      (true, { m with active_positions :=
                monSet m.active_positions order_id { p with trailing_enabled := true } })
  | none => (false, m)

/-- `remove_position` (source lines 481-497): pop from the active map,
stamp status and `closed_at` (`now` is the wall-clock timestamp), append
to history, then evict the oldest history entry if the length exceeds
100.  Returns the removed position, or `None` when the id is unknown. -/
def remove_position (m : MonitorState) (order_id : String) (reason : String)
    (now : ℚ) : Option Position × MonitorState :=
  match monLookup m.active_positions order_id with
  | some p =>
      let p := { p with status := reason, closed_at := some now }
      let history := m.position_history ++ [p]
      let history := if history.length > 100 then history.drop 1 else history
      (some p,
        { active_positions := monRemove m.active_positions order_id
          position_history := history })
  | none => (none, m)

/-! ## Startup restore (position_monitor_service.restore_from_sandbox)

For a still-open ledger row, the recovered stop loss (source lines
66-118) is a function of: the signal-embedded `sl` and `stop_loss`
fields (0 when absent, matching `signal_data.get(\x7bfield\x7d, 0)`),
whether a live open protective (SL/SL-M) order exists and its trigger
price, the most recent historical protective order and its trigger, the
ledger average price and the position direction.  Python truthiness of a
trigger price means: present and nonzero. -/

def recoverSL (signal_sl signal_stop_loss : ℚ)
    (activePresent : Bool) (activeTrigger : ℚ)
    (histPresent : Bool) (histTrigger : ℚ)
    (average_price : ℚ) (isLong : Bool) : ℚ :=
  -- 1. signal-embedded SL, falling back to the stop_loss field
  let sl := if signal_sl ≠ 0 then signal_sl else signal_stop_loss
  -- 2a. no active protective order: fall back to the most recent
  --     historical protective order (overwrites the signal SL)
  let sl := if ¬activePresent ∧ histPresent ∧ histTrigger ≠ 0
            then histTrigger else sl
  -- 2b. active protective order with a truthy trigger (overwrites)
  let sl := if activePresent ∧ activeTrigger ≠ 0 then activeTrigger else sl
  -- 3. 10% fallback when everything above yielded zero
  if sl = 0 ∧ average_price ≠ 0 then
    if isLong then average_price * (9/10) else average_price * (11/10)
  else sl

/-- `final_target` of a restored position (source line 144):
`float(targets[-1]) if targets else 0.0` - the LAST extracted target,
not a max or min. -/
def restoreFinalTarget (targets : List ℚ) : ℚ :=
  match targets.getLast? with
  | some t => t
  | none => 0

/-- Modelled from the amended reading of the restore logic: the
recovered stop loss by priority - a live open protective order's truthy
trigger first; with no live open protective order, the most recent
historical protective order's truthy trigger; otherwise the
signal-embedded SL (sl field, then stop_loss field); otherwise the
10%-of-entry fallback when an average price exists; otherwise zero.
Used only to compare against `recoverSL` (the source translation). -/
def recoverSLPriority (signal_sl signal_stop_loss : ℚ)
    (activePresent : Bool) (activeTrigger : ℚ)
    (histPresent : Bool) (histTrigger : ℚ)
    (average_price : ℚ) (isLong : Bool) : ℚ :=
  let signalSL := if signal_sl ≠ 0 then signal_sl else signal_stop_loss
  if activePresent ∧ activeTrigger ≠ 0 then activeTrigger
  else if ¬activePresent ∧ histPresent ∧ histTrigger ≠ 0 then histTrigger
  else if signalSL ≠ 0 then signalSL
  else if average_price ≠ 0 then
    (if isLong then average_price * (9/10) else average_price * (11/10))
  else 0

/-! ## Signal payload and the head of execute_signal

The parsed-signal dict handed to `execute_signal`.  A missing or falsy
(empty) field is `none`; numeric strings are modelled by their rational
value.  Only the fields that `execute_signal` and
`_convert_signal_to_order` read or write are carried. -/

structure Signal where
  action : Option String
  symbol : Option String
  strike : Option String
  option_type : Option String
  price : Option ℚ
  sl : Option ℚ
  tgt : Option String
  targets : List String
  condition : Option String
deriving DecidableEq, Repr

/-- Round-half-to-even to an integer, as Python `round` on an exactly
representable value. -/
def roundHalfEven (x : ℚ) : ℤ :=
  let f := ⌊x⌋
  let r := x - f
  if r < 1/2 then f
  else if 1/2 < r then f + 1
  else if f % 2 = 0 then f else f + 1

/-- Python `round(x, 1)` (exact-rational model of the float rounding in
the auto-SL computation). -/
def pythonRound1 (x : ℚ) : ℚ :=
  (roundHalfEven (10 * x) : ℚ) / 10

/-- The two in-place writes at the head of `execute_signal` (source
lines 152-175), performed on the caller-supplied `signal_data` BEFORE
any safety gate:
1. infer `action = BUY` when the action is missing but the signal is an
   option leg (option_type CE or PE);
2. auto-compute a 10% stop loss (rounded to 1 decimal) when `sl` is
   missing and a price is present.
No other statement in `execute_signal` or `_convert_signal_to_order`
assigns into `signal_data` (line 555 only aliases it into the order
dict). -/
def executeSignalNormalize (s : Signal) : Signal :=
  let s1 :=
    if s.action = none ∧ (s.option_type = some "CE" ∨ s.option_type = some "PE")
    then { s with action := some "BUY" } else s
  match s1.sl, s1.price with
  | none, some entry =>
      let action := pyUpper (s1.action.getD "BUY")
      let sl_dist := entry * (1/10)
      let calc_sl := if action = "BUY" then entry - sl_dist else entry + sl_dist
      { s1 with sl := some (pythonRound1 calc_sl) }
  | _, _ => s1

/-! ## Duplicate filtering and the safety gates of execute_signal -/

/-- Mutable gate state of `SignalExecutionService`: the enable flag, the
confidence threshold, the duplicate window (seconds) and the per-channel
recent-signal lists `{channel: [(signal_hash, timestamp), ...]}`. -/
structure ExecServiceState where
  enabled : Bool
  confidence_threshold : ℚ
  duplicate_window : ℚ
  recent_signals : List (String × List (String × ℚ))
deriving DecidableEq, Repr

/-- `defaultdict(list)` read: a missing channel yields the empty list. -/
def chanGet (l : List (String × List (String × ℚ))) (channel : String) :
    List (String × ℚ) :=
  match l with
  | [] => []
  | (c, v) :: rest => if c = channel then v else chanGet rest channel

/-- Store a channel's list back (replace or append, as dict update). -/
def chanSet (l : List (String × List (String × ℚ))) (channel : String)
    (v : List (String × ℚ)) : List (String × List (String × ℚ)) :=
  match l with
  | [] => [(channel, v)]
  | (c, v') :: rest =>
      if c = channel then (c, v) :: rest else (c, v') :: chanSet rest channel v

/-- `_generate_signal_hash` (source lines 67-76):
`'|'.join([action, symbol, strike, option_type]).upper()`. -/
def generate_signal_hash (s : Signal) : String :=
  pyUpper (s.action.getD "" ++ "|" ++ s.symbol.getD "" ++ "|"
    ++ s.strike.getD "" ++ "|" ++ s.option_type.getD "")

/-- `_is_duplicate` (source lines 78-98): lazily purge entries older than
the window, report a hit on a matching hash, otherwise record the new
signal. -/
def is_duplicate (st : ExecServiceState) (channel : String) (s : Signal)
    (now : ℚ) : Bool × ExecServiceState :=
  let h := generate_signal_hash s
  let lst := (chanGet st.recent_signals channel).filter
    (fun p => now - p.2 < st.duplicate_window)
  if lst.any (fun p => p.1 = h) then
    (true, { st with recent_signals := chanSet st.recent_signals channel lst })
  else
    (false, { st with recent_signals :=
                chanSet st.recent_signals channel (lst ++ [(h, now)]) })

/-- Safety checks 1-3 of `execute_signal` (source lines 177-192), run on
the already-normalized signal: returns the rejection message when a gate
fires (the low-confidence message carries the formatted number in the
source; only the constant duplicate message matters here), `none` when
the signal passes on to validation and order placement. -/
def executeSignalGate (st : ExecServiceState) (channel : String) (s : Signal)
    (confidence : ℚ) (now : ℚ) : Option String × ExecServiceState :=
  if ¬st.enabled then (some "Auto-execution disabled", st)
  else if confidence < st.confidence_threshold then
    (some "Low confidence", st)
  else
    match is_duplicate st channel s now with
    | (true, st') => (some "Duplicate signal", st')
    | (false, st') => (none, st')

/-! ## Signal classifier (signal_classifier.classify and _extract_signal_data)

Every regular expression of the source is translated into an explicit
scanner over the character list.  `re.IGNORECASE` searches run over the
lowercased text (all the patterns are ASCII).  Scanners that resume
after a consumed match carry a fuel argument initialised with the text
length, mirroring the left-to-right consumption of `re.findall`. -/

/-- Python regex word character `\w` (ASCII). -/
def isWordC (c : Char) : Bool := c.isAlpha || c.isDigit || c = '_'

/-- Python regex whitespace `\s` (ASCII). -/
def isSpaceC (c : Char) : Bool :=
  c = ' ' || c = '\t' || c = '\n' || c = '\r' || c = '\x0b' || c = '\x0c'

/-- `\b` on the left of a position about to match a word character. -/
def boundaryBefore : Option Char → Bool
  | none => true
  | some c => !isWordC c

/-- `\b` right after a match that ends in a word character: end of text
or a non-word character next. -/
def nonWordNext : List Char → Bool
  | [] => true
  | c :: _ => !isWordC c

/-- Plain substring occurrence (Python `in`, `re.search` of a literal). -/
def containsSub (p : List Char) : List Char → Bool
  | [] => p.isPrefixOf ([] : List Char)
  | c :: rest => p.isPrefixOf (c :: rest) || containsSub p rest

/-- `re.search(r'\b' + keyword + r'\b', text)` for a keyword made of
word characters (possibly with interior punctuation, as pre-market). -/
def containsWordAux (p : List Char) : Option Char → List Char → Bool
  | _, [] => false
  | prev, c :: rest =>
      (boundaryBefore prev && p.isPrefixOf (c :: rest)
        && nonWordNext ((c :: rest).drop p.length))
      || containsWordAux p (some c) rest

def containsWord (p : List Char) (s : List Char) : Bool :=
  containsWordAux p none s

/-- `b` preceded by one-or-more whitespace (`\s+b`) at the head of `r`. -/
def afterSpaces1 (b r : List Char) : Bool :=
  let sp := r.takeWhile isSpaceC
  decide (1 ≤ sp.length) && b.isPrefixOf (r.drop sp.length)

/-- `a\s+b` search (the whitespace may include newlines). -/
def containsSeqSpace (a b : List Char) : List Char → Bool
  | [] => false
  | c :: rest =>
      (a.isPrefixOf (c :: rest) && afterSpaces1 b ((c :: rest).drop a.length))
      || containsSeqSpace a b rest

/-- `p` occurring in the current line (`.*p` continuation: `.` does not
match a newline). -/
def containsSubBeforeNL (p : List Char) : List Char → Bool
  | [] => p.isPrefixOf ([] : List Char)
  | c :: rest =>
      p.isPrefixOf (c :: rest) || (!(c = '\n') && containsSubBeforeNL p rest)

/-- `a.*b` search: `a` anywhere in the text, `b` after it on the same
line. -/
def containsThen (a b : List Char) : List Char → Bool
  | [] => false
  | c :: rest =>
      (a.isPrefixOf (c :: rest) && containsSubBeforeNL b ((c :: rest).drop a.length))
      || containsThen a b rest

/-- `.*b1.*b2` continuation from the current position (both gaps stay on
the current line). -/
def containsThenB (b1 b2 : List Char) : List Char → Bool
  | [] => false
  | c :: rest =>
      (b1.isPrefixOf (c :: rest) && containsSubBeforeNL b2 ((c :: rest).drop b1.length))
      || (!(c = '\n') && containsThenB b1 b2 rest)

/-- `.*b1.*b2.*b3` continuation from the current position. -/
def containsThenB2 (b1 b2 b3 : List Char) : List Char → Bool
  | [] => false
  | c :: rest =>
      (b1.isPrefixOf (c :: rest) && containsThenB b2 b3 ((c :: rest).drop b1.length))
      || (!(c = '\n') && containsThenB2 b1 b2 b3 rest)

/-- Try a position-local matcher at every position of the text. -/
def anyPosMatch (f : List Char → Bool) : List Char → Bool
  | [] => f []
  | c :: rest => f (c :: rest) || anyPosMatch f rest

/-- `action_keywords` dict of the classifier (source lines 54-57). -/
def action_keywords : List (String × ℤ) :=
  [("buy", 12), ("sell", 12), ("long", 10), ("short", 10),
   ("exit", 8), ("square", 7), ("book", 6), ("close", 5)]

/-- `instrument_keywords` dict (source lines 60-66). -/
def instrument_keywords : List (String × ℤ) :=
  [("nifty", 8), ("banknifty", 8), ("finnifty", 8), ("midcpnifty", 8),
   ("sensex", 8), ("bankex", 8),
   ("crude", 7), ("crudeoil", 7), ("gold", 7), ("silver", 7),
   ("naturalgas", 7), ("copper", 6), ("zinc", 6),
   ("ce", 7), ("pe", 7), ("fut", 7), ("call", 6), ("put", 6)]

/-- `param_keywords` dict (source lines 69-76). -/
def param_keywords : List (String × ℤ) :=
  [("sl", 8), ("stoploss", 8), ("stop", 6),
   ("tgt", 8), ("target", 8), ("tp", 8),
   ("entry", 6), ("cmp", 5), ("ltp", 5),
   ("lot", 3), ("qty", 3), ("quantity", 3),
   ("above", 5), ("below", 5), ("near", 4), ("around", 4),
   ("price", 3), ("level", 0)]

/-- `noise_keywords` dict (source lines 79-119). -/
def noise_keywords : List (String × ℤ) :=
  [("good", -4), ("morning", -4), ("evening", -3), ("hello", -4),
   ("thanks", -3), ("thank", -3), ("welcome", -3), ("please", -2),
   ("looking", -4), ("trend", -3), ("trending", -3),
   ("analysis", -5), ("view", -4), ("opinion", -4),
   ("think", -4), ("expect", -3), ("expecting", -3),
   ("might", -3), ("may", -3), ("could", -3), ("should", -3),
   ("would", -3), ("will", -2), ("going", -2),
   ("wait", -6), ("waiting", -6), ("watch", -5), ("watching", -5),
   ("observe", -4), ("monitor", -3),
   ("sideway", -6), ("sideways", -6), ("range", -4), ("ranging", -4),
   ("breakout", -5), ("breakdown", -5), ("zone", -4), ("level", -3),
   ("resistance", -4), ("support", -4), ("testing", -4),
   ("bullish", -4), ("bearish", -4), ("neutral", -4),
   ("what", -4), ("how", -4), ("when", -4), ("where", -3),
   ("question", -5), ("?", -3),
   ("both", -4), ("all", -3), ("everyone", -4), ("traders", -2),
   ("news", -4), ("update", -4), ("breaking", -4), ("announcement", -4),
   ("report", -3), ("data", -2),
   ("learn", -4), ("guide", -4), ("tutorial", -4), ("tips", -3),
   ("strategy", -3), ("method", -3),
   ("premarket", -4), ("pre-market", -4), ("postmarket", -4),
   ("market", -1)]

/-- Sum the weights of the dict keywords found as whole words in the
lowercased text. -/
def keywordScore (kws : List (String × ℤ)) (tl : List Char) : ℤ :=
  kws.foldl (fun acc kw => if containsWord kw.1.data tl then acc + kw.2 else acc) 0

/-- Noise scoring (source lines 212-218): the `?` key is a plain
substring test on the raw text, every other key a word search on the
lowercased text. -/
def noiseScore (t tl : List Char) : ℤ :=
  noise_keywords.foldl (fun acc kw =>
    if kw.1 = "?" then (if containsSub kw.1.data t then acc + kw.2 else acc)
    else (if containsWord kw.1.data tl then acc + kw.2 else acc)) 0

/-- The anti-pattern penalties (source lines 146-162 and 174-178): each
matching anti-pattern subtracts 10.  All six patterns are compiled with
re.IGNORECASE, hence matched on the lowercased text (`\?` is
case-blind anyway). -/
def antiPatternScore (tl : List Char) : ℤ :=
  (if containsSub "?".data tl then (-10) else 0)
  + (if containsSeqSpace "wait".data "for".data tl then (-10) else 0)
  + (if containsSeqSpace "watch".data "for".data tl
        || containsSeqSpace "watch".data "out".data tl then (-10) else 0)
  + (if containsThen "both".data "nifty".data tl
        || containsThen "both".data "sensex".data tl
        || containsThen "both".data "banknifty".data tl
        || containsThen "all".data "nifty".data tl
        || containsThen "all".data "sensex".data tl
        || containsThen "all".data "banknifty".data tl then (-10) else 0)
  + (if containsSeqSpace "breaking".data "news".data tl
        || containsSeqSpace "breaking".data "update".data tl
        || containsSeqSpace "latest".data "news".data tl
        || containsSeqSpace "latest".data "update".data tl then (-10) else 0)
  + (if containsSub "learn".data tl || containsSub "guide".data tl
        || containsSub "tutorial".data tl || containsSub "tips".data tl
        || containsSub "strategy".data tl then (-10) else 0)

/-- has_sl flag of the param loop (source lines 196-204). -/
def hasSLKeyword (tl : List Char) : Bool :=
  containsWord "sl".data tl || containsWord "stoploss".data tl
    || containsWord "stop".data tl

/-- has_tgt flag of the param loop. -/
def hasTgtKeyword (tl : List Char) : Bool :=
  containsWord "tgt".data tl || containsWord "target".data tl
    || containsWord "tp".data tl

/-- `action_found` of the keyword loop (source lines 181-188): the first
of buy/sell/long/short (dict order) found as a whole word, mapped to
BUY/SELL. -/
def actionFound (tl : List Char) : Option String :=
  if containsWord "buy".data tl then some "BUY"
  else if containsWord "sell".data tl then some "SELL"
  else if containsWord "long".data tl then some "BUY"
  else if containsWord "short".data tl then some "SELL"
  else none

/-- `re.findall` count for the price pattern
`\b\d{2,6}(?:\.\d{1,2})?\b` (source line 122): boundary-delimited digit
runs of length 2-6 with an optional 1-2 digit fraction; the fraction is
only consumed when a boundary follows it, and a digit run longer than 6
can never match (its interior has no word boundary). -/
def pricePatternCount : Nat → Option Char → List Char → Nat
  | 0, _, _ => 0
  | _, _, [] => 0
  | fuel+1, prev, c :: cs =>
      if boundaryBefore prev && c.isDigit then
        let run := (c :: cs).takeWhile Char.isDigit
        let rest := (c :: cs).drop run.length
        if 2 ≤ run.length ∧ run.length ≤ 6 then
          match rest with
          | '.' :: ds =>
              let fr := ds.takeWhile Char.isDigit
              if 1 ≤ fr.length ∧ fr.length ≤ 2 ∧ nonWordNext (ds.drop fr.length) then
                1 + pricePatternCount fuel (some c) (ds.drop fr.length)
              else
                1 + pricePatternCount fuel (some '.') ds
          | r =>
              if nonWordNext r then 1 + pricePatternCount fuel (some c) r
              else pricePatternCount fuel (some c) r
        else pricePatternCount fuel (some c) rest
      else pricePatternCount fuel (some c) cs

/-- Consume one-or-more characters satisfying `p` (a maximal `X+` munch
whose follower class is disjoint from `X`). -/
def munch1 (p : Char → Bool) (s : List Char) : Option (List Char) :=
  let run := s.takeWhile p
  if 1 ≤ run.length then some (s.drop run.length) else none

/-- Consume a literal prefix. -/
def munchPrefix (pat : List Char) (s : List Char) : Option (List Char) :=
  if pat.isPrefixOf s then some (s.drop pat.length) else none

/-- Signal pattern 1: `(buy|sell|long|short)\s+\w+\s+\d+\s+(ce|pe)`. -/
def p1At (s : List Char) : Bool :=
  ["buy", "sell", "long", "short"].any (fun a =>
    ((((((munchPrefix a.data s).bind (munch1 isSpaceC)).bind
        (munch1 isWordC)).bind (munch1 isSpaceC)).bind
      (munch1 Char.isDigit)).bind (munch1 isSpaceC)).map
      (fun r => "ce".data.isPrefixOf r || "pe".data.isPrefixOf r)
      |>.getD false)

/-- Signal pattern 4: `(?:entry|above|below|cmp|ltp)[:-]*\s+\d+.*(?:sl|target)`. -/
def p4At (s : List Char) : Bool :=
  ["entry", "above", "below", "cmp", "ltp"].any (fun a =>
    match munchPrefix a.data s with
    | none => false
    | some r1 =>
        let r2 := r1.dropWhile (fun c => c = ':' || c = '-')
        match munch1 isSpaceC r2 with
        | none => false
        | some r3 =>
            match r3 with
            | c :: r4 =>
                c.isDigit && (containsSubBeforeNL "sl".data r4
                  || containsSubBeforeNL "target".data r4)
            | [] => false)

/-- Shared head of signal patterns 5 and 6: `\w+\s+\d{3,6}\s+(ce|pe)`,
returning the rest after the option tag. -/
def wordStrikeOptAt (s : List Char) : Option (List Char) :=
  match munch1 isWordC s with
  | none => none
  | some r1 =>
      match munch1 isSpaceC r1 with
      | none => none
      | some r2 =>
          let d := r2.takeWhile Char.isDigit
          if 3 ≤ d.length ∧ d.length ≤ 6 then
            match munch1 isSpaceC (r2.drop d.length) with
            | none => none
            | some r3 =>
                match munchPrefix "ce".data r3 with
                | some r => some r
                | none => munchPrefix "pe".data r3
          else none

/-- Signal pattern 5:
`\w+\s+\d{3,6}\s+(ce|pe)\s+(?:above|below|near|@|cmp).*sl.*target`. -/
def p5At (s : List Char) : Bool :=
  match (wordStrikeOptAt s).bind (munch1 isSpaceC) with
  | none => false
  | some r4 =>
      ["above", "below", "near", "@", "cmp"].any (fun al =>
        match munchPrefix al.data r4 with
        | none => false
        | some r5 => containsThenB "sl".data "target".data r5)

/-- Signal pattern 6: `\w+\s+\d{3,6}\s+(ce|pe).*above`. -/
def p6At (s : List Char) : Bool :=
  match wordStrikeOptAt s with
  | none => false
  | some r => containsSubBeforeNL "above".data r

/-- Signal pattern 7: `stock:.*(?:long|short).*price:.*(?:sl|tp)`. -/
def p7At (s : List Char) : Bool :=
  match munchPrefix "stock:".data s with
  | none => false
  | some r =>
      ["long", "short"].any (fun a => ["sl", "tp"].any (fun b =>
        containsThenB2 a.data "price:".data b.data r))

/-- `signal_patterns` loop (source lines 228-234): a single +10 bonus if
any of the seven structure patterns matches (the loop breaks on the
first hit, the bonus is identical for all). -/
def signalPatternMatched (tl : List Char) : Bool :=
  anyPosMatch p1At tl
  || (["sl", "stoploss", "stop"].any (fun a =>
        ["tgt", "target", "tp"].any (fun b => containsThen a.data b.data tl)))
  || (["tgt", "target", "tp"].any (fun a =>
        ["sl", "stoploss", "stop"].any (fun b => containsThen a.data b.data tl)))
  || anyPosMatch p4At tl
  || anyPosMatch p5At tl
  || anyPosMatch p6At tl
  || anyPosMatch p7At tl

/-- The raw classification score of `classify` (source lines 171-234):
anti-pattern penalties, the four keyword lexicons, the SL+TGT bonus,
the price-count bonus and the structure-pattern bonus. -/
def classifyScore (text : String) : ℤ :=
  let t := text.data
  let tl := (pyLower text).data
  antiPatternScore tl
    + keywordScore action_keywords tl
    + keywordScore instrument_keywords tl
    + keywordScore param_keywords tl
    + (if hasSLKeyword tl && hasTgtKeyword tl then 12 else 0)
    + noiseScore t tl
    + (let n := pricePatternCount (t.length + 1) none t
       if 3 ≤ n then 8 else if 2 ≤ n then 4 else 0)
    + (if signalPatternMatched tl then 10 else 0)

/-! ### Extraction (signal_classifier._extract_signal_data)

Numeric strings are compared through exact scaled decimals
(`Dec`: mantissa over a power of ten), the model of the float values the
source builds with `float(...)`. -/

structure Dec where
  mant : Nat
  exp : Nat
deriving DecidableEq, Repr

def natOfDigits (l : List Char) : Nat :=
  l.foldl (fun n c => n * 10 + (c.toNat - 48)) 0

/-- `float(s)` for a captured number `digits(.digits)?`. -/
def parseDec (s : String) : Dec :=
  let d := s.data.takeWhile Char.isDigit
  let r := s.data.drop d.length
  match r with
  | '.' :: ds =>
      let f := ds.takeWhile Char.isDigit
      ⟨natOfDigits (d ++ f), f.length⟩
  | _ => ⟨natOfDigits d, 0⟩

/-- Float equality of two decimals. -/
def decEqv (a b : Dec) : Bool :=
  decide (a.mant * 10 ^ b.exp = b.mant * 10 ^ a.exp)

/-- Float strict order of two decimals. -/
def decLt (a b : Dec) : Bool :=
  decide (a.mant * 10 ^ b.exp < b.mant * 10 ^ a.exp)

/-- Strip common factors of ten (the canonical form `str(float)` prints). -/
def decNormAux : Nat → Nat → Dec
  | m, 0 => ⟨m, 0⟩
  | m, e+1 => if m % 10 = 0 then decNormAux (m / 10) e else ⟨m, e + 1⟩

def decNorm (d : Dec) : Dec := decNormAux d.mant d.exp

def natDigitsAux : Nat → Nat → List Char → List Char
  | 0, _, acc => acc
  | _+1, 0, acc => acc
  | fuel+1, n, acc => natDigitsAux fuel (n / 10) (Char.ofNat (48 + n % 10) :: acc)

def natDigits (n : Nat) : List Char :=
  if n = 0 then ['0'] else natDigitsAux (n + 1) n []

/-- Python `str(float(x))` for a value that is an exact short decimal:
the minimal decimal digits, with `.0` appended to an integral value. -/
def pyFloatRepr (d0 : Dec) : String :=
  let d := decNorm d0
  if d.exp = 0 then String.mk (natDigits d.mant) ++ ".0"
  else
    let ip := d.mant / 10 ^ d.exp
    let fp := d.mant % 10 ^ d.exp
    let fdigits := natDigits fp
    let pad := List.replicate (d.exp - fdigits.length) '0'
    String.mk (natDigits ip) ++ "." ++ String.mk (pad ++ fdigits)

/-- `\b w \b` at a position. -/
def wordAt (w : List Char) (prev : Option Char) (s : List Char) : Bool :=
  boundaryBefore prev && w.isPrefixOf s && nonWordNext (s.drop w.length)

/-- `\b w1 \s* w2 \b` at a position (the two-word symbol alternatives). -/
def gapWordAt (w1 w2 : List Char) (prev : Option Char) (s : List Char) : Bool :=
  boundaryBefore prev && w1.isPrefixOf s &&
    (let r := (s.drop w1.length).dropWhile isSpaceC
     w2.isPrefixOf r && nonWordNext (r.drop w2.length))

/-- `\b sbine? \b` at a position. -/
def sbinAt (prev : Option Char) (s : List Char) : Option String :=
  if boundaryBefore prev && "sbin".data.isPrefixOf s then
    match s.drop 4 with
    | 'e' :: r2 => if nonWordNext r2 then some "SBINE" else none
    | r => if nonWordNext r then some "SBIN" else none
  else none

/-- One alternative of `symbol_pattern` (source line 292) tried at a
position, in the alternation order of the pattern; the value carries the
normalisation of source lines 300-308 (NATURAL* to NATURALGAS, CRUDE*
to CRUDEOIL, spaces stripped, uppercased). -/
def symbolAltAt (prev : Option Char) (s : List Char) : Option String :=
  if wordAt "nifty".data prev s then some "NIFTY"
  else if wordAt "banknifty".data prev s then some "BANKNIFTY"
  else if wordAt "finnifty".data prev s then some "FINNIFTY"
  else if wordAt "midcpnifty".data prev s then some "MIDCPNIFTY"
  else if wordAt "sensex".data prev s then some "SENSEX"
  else if wordAt "bankex".data prev s then some "BANKEX"
  else if gapWordAt "crude".data "oil".data prev s then some "CRUDEOIL"
  else if wordAt "crude".data prev s then some "CRUDEOIL"
  else if wordAt "gold".data prev s then some "GOLD"
  else if wordAt "silver".data prev s then some "SILVER"
  else if gapWordAt "natural".data "gas".data prev s then some "NATURALGAS"
  else if wordAt "tcs".data prev s then some "TCS"
  else if wordAt "infy".data prev s then some "INFY"
  else if wordAt "reliance".data prev s then some "RELIANCE"
  else if gapWordAt "hdfc".data "bank".data prev s then some "HDFCBANK"
  else if gapWordAt "icici".data "bank".data prev s then some "ICICIBANK"
  else sbinAt prev s

def scanSymbolPattern : Option Char → List Char → Option String
  | _, [] => none
  | prev, c :: rest =>
      match symbolAltAt prev (c :: rest) with
      | some v => some v
      | none => scanSymbolPattern (some c) rest

/-- `\(([A-Z]+)\)` on the raw text (case sensitive, source line 297). -/
def scanParenSymbol : List Char → Option String
  | [] => none
  | '(' :: rest =>
      let run := rest.takeWhile (fun c => 'A' ≤ c && c ≤ 'Z')
      if decide (1 ≤ run.length)
          && (match rest.drop run.length with | ')' :: _ => true | _ => false) then
        some (String.mk run)
      else scanParenSymbol rest
  | _ :: rest => scanParenSymbol rest

/-- `\b([A-Z]{3,15})\s+(\d{3,6})\s+(?:CE|PE)` (source line 314, re.I)
tried at one position. -/
def genericSymbolAt (prev : Option Char) (s : List Char) : Option String :=
  if boundaryBefore prev then
    let run := s.takeWhile Char.isAlpha
    if 3 ≤ run.length ∧ run.length ≤ 15 then
      match munch1 isSpaceC (s.drop run.length) with
      | none => none
      | some r2 =>
          let d := r2.takeWhile Char.isDigit
          if 3 ≤ d.length ∧ d.length ≤ 6 then
            match munch1 isSpaceC (r2.drop d.length) with
            | none => none
            | some r3 =>
                if "ce".data.isPrefixOf r3 || "pe".data.isPrefixOf r3 then
                  some (String.mk (run.map Char.toUpper))
                else none
          else none
    else none
  else none

def scanGenericSymbol : Option Char → List Char → Option String
  | _, [] => none
  | prev, c :: rest =>
      match genericSymbolAt prev (c :: rest) with
      | some v => some v
      | none => scanGenericSymbol (some c) rest

/-- First `\b(\d{3,6})\b` in the raw text (the strike, source line 321). -/
def scanStrike : Nat → Option Char → List Char → Option String
  | 0, _, _ => none
  | _, _, [] => none
  | fuel+1, prev, c :: cs =>
      if boundaryBefore prev && c.isDigit then
        let run := (c :: cs).takeWhile Char.isDigit
        let rest := (c :: cs).drop run.length
        if 3 ≤ run.length ∧ run.length ≤ 6 ∧ nonWordNext rest then
          some (String.mk run)
        else scanStrike fuel (some c) rest
      else scanStrike fuel (some c) cs

/-- `\b(CE|PE|Call|Put)\b` normalised to CE/PE (source lines 325-328). -/
def optionTypeAt (prev : Option Char) (s : List Char) : Option String :=
  if wordAt "ce".data prev s then some "CE"
  else if wordAt "pe".data prev s then some "PE"
  else if wordAt "call".data prev s then some "CE"
  else if wordAt "put".data prev s then some "PE"
  else none

def scanOptionType : Option Char → List Char → Option String
  | _, [] => none
  | prev, c :: rest =>
      match optionTypeAt prev (c :: rest) with
      | some v => some v
      | none => scanOptionType (some c) rest

def monthNames : List String :=
  ["jan", "feb", "mar", "apr", "may", "jun", "jul", "aug", "sep", "oct", "nov", "dec"]

/-- The month group of `month_pattern`, uppercased. -/
def monthPrefixAt (s : List Char) : Option String :=
  (monthNames.find? (fun m => m.data.isPrefixOf s)).map pyUpper

/-- `(?:st|nd|rd|th)` optional ordinal prefix. -/
def ordinalPrefix (s : List Char) : Option (List Char) :=
  if "st".data.isPrefixOf s then some (s.drop 2)
  else if "nd".data.isPrefixOf s then some (s.drop 2)
  else if "rd".data.isPrefixOf s then some (s.drop 2)
  else if "th".data.isPrefixOf s then some (s.drop 2)
  else none

/-- `(?:st|nd|rd|th)?\s*(MONTH)[a-z]*` continuation after the day digits
(greedy: the ordinal-consuming path is tried first). -/
def expiryTail (s : List Char) : Option String :=
  let tryFrom : List Char → Option String := fun r =>
    monthPrefixAt (r.dropWhile isSpaceC)
  match ordinalPrefix s with
  | some r =>
      match tryFrom r with
      | some m => some m
      | none => tryFrom s
  | none => tryFrom s

/-- `(\d{1,2})(?:st|nd|rd|th)?\s*(MONTH)[a-z]*` tried at one position
(two-digit day preferred, as the greedy `\d{1,2}`). -/
def specificExpiryAt : List Char → Option String
  | [] => none
  | c1 :: rest1 =>
      if c1.isDigit then
        match rest1 with
        | c2 :: rest2 =>
            if c2.isDigit then
              match expiryTail rest2 with
              | some m => some (String.mk [c1, c2] ++ m)
              | none =>
                  match expiryTail rest1 with
                  | some m => some (String.mk [c1] ++ m)
                  | none => none
            else
              match expiryTail rest1 with
              | some m => some (String.mk [c1] ++ m)
              | none => none
        | [] => none
      else none

def scanSpecificExpiry : List Char → Option String
  | [] => none
  | c :: rest =>
      match specificExpiryAt (c :: rest) with
      | some v => some v
      | none => scanSpecificExpiry rest

/-- `\b(MONTH)[a-z]*\b` tried at one position. -/
def monthOnlyAt (prev : Option Char) (s : List Char) : Option String :=
  if boundaryBefore prev then
    match monthNames.find? (fun m => m.data.isPrefixOf s) with
    | some m =>
        let r := s.drop 3
        let run := r.takeWhile Char.isAlpha
        if nonWordNext (r.drop run.length) then some (pyUpper m) else none
    | none => none
  else none

def scanMonthOnly : Option Char → List Char → Option String
  | _, [] => none
  | prev, c :: rest =>
      match monthOnlyAt prev (c :: rest) with
      | some v => some v
      | none => scanMonthOnly (some c) rest

/-- Capture `(\d+(?:\.\d+)?)` at the head of `r` (greedy, fraction only
when at least one digit follows the dot). -/
def priceNumberFrom (r : List Char) : String :=
  let d := r.takeWhile Char.isDigit
  let r2 := r.drop d.length
  match r2 with
  | '.' :: ds =>
      let f := ds.takeWhile Char.isDigit
      if 1 ≤ f.length then String.mk (d ++ '.' :: f) else String.mk d
  | _ => String.mk d

/-- Membership of the gap before the entry-price number in
`(?:[:-]*)\s*[^0-9\n]*\s*`: the gap runs to the first digit, so it holds
no digit; after stripping the leading `[:-]` run, any newline may lie
only in the leading or trailing whitespace stretch. -/
def gapOkC (g : List Char) : Bool :=
  let g2 := g.dropWhile (fun c => c = ':' || c = '-')
  let g3 := g2.dropWhile isSpaceC
  let g4 := (g3.reverse.dropWhile isSpaceC).reverse
  g4.all (fun c => !(c = '\n'))

def priceCondAlts : List String :=
  ["above", "below", "around", "near", "@", "at", "cmp", "price", "entry"]

/-- The entry-price pattern (source lines 358-371) tried at one
position: an alternative keyword (pattern order), the permissive gap,
then the captured number; the condition is only recorded for the six
condition words. -/
def priceCondAt (s : List Char) : Option (String × Option String) :=
  priceCondAlts.foldl (fun acc a =>
    match acc with
    | some r => some r
    | none =>
        if a.data.isPrefixOf s then
          let r := s.drop a.data.length
          let g := r.takeWhile (fun c => !c.isDigit)
          let rest := r.drop g.length
          if !rest.isEmpty && gapOkC g then
            some (priceNumberFrom rest,
              if a = "above" || a = "below" || a = "around" || a = "near"
                  || a = "at" || a = "@" then some a else none)
          else none
        else none) none

def scanPriceCond : List Char → Option (String × Option String)
  | [] => none
  | c :: rest =>
      match priceCondAt (c :: rest) with
      | some v => some v
      | none => scanPriceCond rest

/-- `re.findall(r'\b\d+(?:\.\d+)?\b', text)` (the price fallback pool,
source line 376). -/
def scanAllNums : Nat → Option Char → List Char → List String
  | 0, _, _ => []
  | _, _, [] => []
  | fuel+1, prev, c :: cs =>
      if boundaryBefore prev && c.isDigit then
        let d := (c :: cs).takeWhile Char.isDigit
        let rest := (c :: cs).drop d.length
        match rest with
        | '.' :: ds =>
            let f := ds.takeWhile Char.isDigit
            if 1 ≤ f.length ∧ nonWordNext (ds.drop f.length) then
              String.mk (d ++ '.' :: f) :: scanAllNums fuel (some c) (ds.drop f.length)
            else
              String.mk d :: scanAllNums fuel (some '.') ds
        | r =>
            if nonWordNext r then String.mk d :: scanAllNums fuel (some c) r
            else scanAllNums fuel (some c) r
      else scanAllNums fuel (some c) cs

/-- Price fallback (source lines 374-385): the first found number that
does not equal the extracted strike as a string nor as a float. -/
def fallbackPrice (strike : Option String) : List String → Option String
  | [] => none
  | n :: rest =>
      match strike with
      | some st =>
          if n = st || decEqv (parseDec n) (parseDec st) then
            fallbackPrice (some st) rest
          else some n
      | none => some n

/-- `(?:stop\s*loss|sl|stop)` tried at one position, each alternative
with its own continuation. -/
def stopLossPrefix (s : List Char) : Option (List Char) :=
  (munchPrefix "stop".data s).bind
    (fun r => munchPrefix "loss".data (r.dropWhile isSpaceC))

/-- The gap `\s*(?:[:-]*)\s*[₹]?\s*` before the SL number: adjacent
classes are disjoint, so maximal munching is exact. -/
def slGapNumber (r : List Char) : Option String :=
  let r1 := r.dropWhile isSpaceC
  let r2 := r1.dropWhile (fun c => c = ':' || c = '-')
  let r3 := r2.dropWhile isSpaceC
  let r4 := match r3 with
            | '₹' :: rr => rr
            | _ => r3
  let r5 := r4.dropWhile isSpaceC
  match r5 with
  | c :: _ => if c.isDigit then some (priceNumberFrom r5) else none
  | [] => none

/-- The stop-loss pattern (source line 389) tried at one position. -/
def slAt (s : List Char) : Option String :=
  match (stopLossPrefix s).bind slGapNumber with
  | some v => some v
  | none =>
      match (munchPrefix "sl".data s).bind slGapNumber with
      | some v => some v
      | none => (munchPrefix "stop".data s).bind slGapNumber

def scanSL : List Char → Option String
  | [] => none
  | c :: rest =>
      match slAt (c :: rest) with
      | some v => some v
      | none => scanSL rest

/-- The capture class `[\d\s,./+]` of the target section. -/
def targetClassChar (c : Char) : Bool :=
  c.isDigit || isSpaceC c || c = ',' || c = '.' || c = '/' || c = '+'

/-- The lookahead `(?=sl|stop|above|below|\n|$)`. -/
def targetLookahead (r : List Char) : Bool :=
  "sl".data.isPrefixOf r || "stop".data.isPrefixOf r
  || "above".data.isPrefixOf r || "below".data.isPrefixOf r
  || (match r with | [] => true | '\n' :: _ => true | _ => false)

/-- The lazy capture `([\d\s,./+]+?)` up to the lookahead: the shortest
non-empty class-char prefix whose end satisfies the lookahead. -/
def lazyCaptureAux : List Char → List Char → Option (List Char)
  | _, [] => none
  | acc, c :: rest =>
      if targetClassChar c then
        if targetLookahead rest then some (acc ++ [c])
        else lazyCaptureAux (acc ++ [c]) rest
      else none

/-- Backtrack the greedy `\s*[:\s-]*` prefix (equivalently `[:\s-]*`)
from its maximal munch down to the empty prefix, taking the first length
from which the lazy capture succeeds. -/
def tryPrefixJ (r : List Char) : Nat → Option (List Char)
  | 0 => lazyCaptureAux [] r
  | j+1 =>
      match lazyCaptureAux [] (r.drop (j + 1)) with
      | some g => some g
      | none => tryPrefixJ r j

/-- The target-section pattern
`(?:target|tgt|tp)s?\s*[:\s-]*([\d\s,./+]+?)(?=sl|stop|above|below|\n|$)`
(source lines 400-404) tried at one position; the optional `s` is
greedy. -/
def targetSectionAt (s : List Char) : Option (List Char) :=
  ["target", "tgt", "tp"].foldl (fun acc a =>
    match acc with
    | some g => some g
    | none =>
        match munchPrefix a.data s with
        | none => none
        | some r0 =>
            let tryCap : List Char → Option (List Char) := fun r =>
              tryPrefixJ r
                (r.takeWhile (fun c => c = ':' || isSpaceC c || c = '-')).length
            match r0 with
            | 's' :: r1 =>
                (match tryCap r1 with
                 | some g => some g
                 | none => tryCap r0)
            | _ => tryCap r0) none

def scanTargetSection : List Char → Option (List Char)
  | [] => none
  | c :: rest =>
      match targetSectionAt (c :: rest) with
      | some g => some g
      | none => scanTargetSection rest

/-- `re.findall(r'\d+(?:\.\d+)?', target_str)` (no boundaries). -/
def findallNums : Nat → List Char → List String
  | 0, _ => []
  | _, [] => []
  | fuel+1, c :: rest =>
      if c.isDigit then
        let d := (c :: rest).takeWhile Char.isDigit
        let r2 := (c :: rest).drop d.length
        match r2 with
        | '.' :: ds =>
            let f := ds.takeWhile Char.isDigit
            if 1 ≤ f.length then
              String.mk (d ++ '.' :: f) :: findallNums fuel (ds.drop f.length)
            else String.mk d :: findallNums fuel r2
        | _ => String.mk d :: findallNums fuel r2
      else findallNums fuel rest

/-- The target filter (source lines 413-424): drop values equal to the
extracted price or stop loss and values not above 5. -/
def filterTargets (price sl : Option String) (nums : List String) : List String :=
  nums.filter (fun t =>
    let val := parseDec t
    !decEqv val (parseDec (price.getD "0"))
      && !decEqv val (parseDec (sl.getD "0"))
      && decLt ⟨5, 0⟩ val)

/-- `list(dict.fromkeys(targets))`: deduplicate preserving first
occurrences. -/
def dedupeAux (seen : List String) : List String → List String
  | [] => []
  | x :: rest =>
      if seen.contains x then dedupeAux seen rest
      else x :: dedupeAux (x :: seen) rest

/-- The tail `\s*[:\s-]*[₹]?\s*(number)` of the fallback target pattern
after the optional digit run. -/
def targetFallbackTail (r2 : List Char) : Option (String × List Char) :=
  let r3 := r2.dropWhile (fun c => c = ':' || isSpaceC c || c = '-')
  let r4 := match r3 with
            | '₹' :: rr => rr
            | _ => r3
  let r5 := r4.dropWhile isSpaceC
  match r5 with
  | c :: _ =>
      if c.isDigit then
        let n := priceNumberFrom r5
        some (n, r5.drop n.length)
      else none
  | [] => none

/-- Backtrack the greedy optional digit run `(?:\d+)?` from its maximal
length down to absence. -/
def tryDigitSplit (r1 : List Char) : Nat → Option (String × List Char)
  | 0 => targetFallbackTail r1
  | dl+1 =>
      match targetFallbackTail (r1.drop (dl + 1)) with
      | some res => some res
      | none => tryDigitSplit r1 dl

/-- The fallback target pattern
`(?:target|tgt|tp|t)\s*(?:\d+)?\s*[:\s-]*[₹]?\s*(\d+(?:\.\d+)?)`
(source lines 429-433) tried at one position, returning the captured
number and the resume point of `findall`. -/
def targetFallbackAt (s : List Char) : Option (String × List Char) :=
  ["target", "tgt", "tp", "t"].foldl (fun acc a =>
    match acc with
    | some r => some r
    | none =>
        match munchPrefix a.data s with
        | none => none
        | some r0 =>
            let r1 := r0.dropWhile isSpaceC
            tryDigitSplit r1 (r1.takeWhile Char.isDigit).length) none

def scanTargetFallback : Nat → List Char → List String
  | 0, _ => []
  | _, [] => []
  | fuel+1, c :: rest =>
      match targetFallbackAt (c :: rest) with
      | some (n, resume) => n :: scanTargetFallback fuel resume
      | none => scanTargetFallback fuel rest

/-- The extracted-signal dict (keys of `_extract_signal_data`). -/
structure Extracted where
  action : Option String
  symbol : Option String
  strike : Option String
  option_type : Option String
  expiry : Option String
  price : Option String
  condition : Option String
  sl : Option String
  stop_loss : Option String
  targets : List String
  tgt : Option String
deriving DecidableEq, Repr

/-- `_extract_signal_data` (source lines 264-462).  The valid-symbol set
is empty (no `services/symbols.csv` ships with the repository), so the
tokenised-set step is skipped and symbol extraction starts at
`symbol_pattern`. -/
def extractSignalData (text : String) (action : Option String) : Extracted :=
  let t := text.data
  let tl := (pyLower text).data
  let symbol :=
    match scanSymbolPattern none tl with
    | some v => some v
    | none =>
        match scanParenSymbol t with
        | some v => some v
        | none => scanGenericSymbol none tl
  let strike := scanStrike (t.length + 1) none t
  let option_type := scanOptionType none tl
  let expiry :=
    match scanSpecificExpiry tl with
    | some e => some e
    | none => scanMonthOnly none tl
  let pc := scanPriceCond tl
  let condition := pc.bind Prod.snd
  let price :=
    match pc.map Prod.fst with
    | some p => some p
    | none => fallbackPrice strike (scanAllNums (t.length + 1) none t)
  let sl := scanSL tl
  let primary :=
    match scanTargetSection tl with
    | some g => filterTargets price sl (findallNums (g.length + 1) g)
    | none => []
  let targets0 :=
    if primary.isEmpty then
      filterTargets price sl (scanTargetFallback (tl.length + 1) tl)
    else primary
  let targets := dedupeAux [] targets0
  match targets with
  | [] =>
      { action := action, symbol := symbol, strike := strike,
        option_type := option_type, expiry := expiry, price := price,
        condition := condition, sl := sl, stop_loss := sl,
        targets := [], tgt := none }
  | t0 :: rest =>
      let d0 := parseDec t0
      let ds := rest.map parseDec
      let v := if action = some "SELL" then
                 ds.foldl (fun acc x => if decLt x acc then x else acc) d0
               else
                 ds.foldl (fun acc x => if decLt acc x then x else acc) d0
      { action := action, symbol := symbol, strike := strike,
        option_type := option_type, expiry := expiry, price := price,
        condition := condition, sl := sl, stop_loss := sl,
        targets := t0 :: rest, tgt := some (pyFloatRepr v) }

/-- The result triple of `classify`. -/
structure ClassificationResult where
  is_signal : Bool
  confidence : ℚ
  extracted : Option Extracted
deriving DecidableEq, Repr

/-- `classify` (source lines 164-262): score, confidence, initial
decision, extraction and the post-extraction quality gate (which
downgrades the decision and halves the confidence when the extraction
carries neither an action nor a symbol with a price/SL/target). -/
def classify (text : String) : ClassificationResult :=
  let score := classifyScore text
  let confidence := classifierConfidence score
  if initialIsSignal score then
    let extracted := extractSignalData text (actionFound (pyLower text).data)
    if extracted.action.isSome
        || (extracted.symbol.isSome
            && (extracted.price.isSome || extracted.sl.isSome
                || extracted.tgt.isSome)) then
      { is_signal := true, confidence := confidence, extracted := some extracted }
    else
      { is_signal := false, confidence := confidence * (1/2), extracted := none }
  else
    { is_signal := false, confidence := confidence, extracted := none }

/-- The end-to-end example message of the design. -/
def exampleMessage : String := "BUY RELIANCE @ 2400 SL 2380 TGT 2450"

/-- What the code extracts from the example message. -/
def exampleExtracted : Extracted :=
  { action := some "BUY", symbol := some "RELIANCE", strike := some "2400",
    option_type := none, expiry := none, price := some "2400",
    condition := some "@", sl := some "2380", stop_loss := some "2380",
    targets := ["2450"], tgt := some "2450.0" }

/-- The seven-field extraction the design claims for the example message
(no strike, no stop_loss, tgt the plain string "2450"). -/
def claimedExtracted : Extracted :=
  { action := some "BUY", symbol := some "RELIANCE", strike := none,
    option_type := none, expiry := none, price := some "2400",
    condition := some "@", sl := some "2380", stop_loss := none,
    targets := ["2450"], tgt := some "2450" }

/-! ## Helper lemmas -/

theorem roundHalfEven_intCast (n : ℤ) : roundHalfEven (n : ℚ) = n := by
  unfold roundHalfEven
  norm_num

theorem pythonRound1_ninety : pythonRound1 90 = 90 := by
  unfold pythonRound1
  rw [show (10:ℚ) * 90 = ((900:ℤ):ℚ) by norm_num, roundHalfEven_intCast]
  norm_num

theorem monLookup_eq_none_of_not_mem (l : List (String × Position)) (k : String)
    (h : k ∉ l.map Prod.fst) : monLookup l k = none := by
  induction l with
  | nil => simp [monLookup]
  | cons hd tl ih =>
      obtain ⟨k', v'⟩ := hd
      simp only [List.map_cons, List.mem_cons] at h
      push_neg at h
      have hne : ¬(k' = k) := fun he => h.1 he.symm
      simp [monLookup, hne, ih h.2]

theorem monLookup_monRemove (l : List (String × Position)) (k : String)
    (hnd : (l.map Prod.fst).Nodup) : monLookup (monRemove l k) k = none := by
  induction l with
  | nil => simp [monRemove, monLookup]
  | cons hd tl ih =>
      obtain ⟨k', v'⟩ := hd
      simp only [List.map_cons, List.nodup_cons] at hnd
      by_cases h : k' = k
      · subst h
        simpa [monRemove] using monLookup_eq_none_of_not_mem tl k' hnd.1
      · simp [monRemove, h, monLookup, ih hnd.2]

theorem monLookup_monSet (l : List (String × Position)) (k : String) (v : Position) :
    monLookup (monSet l k v) k = some v := by
  induction l with
  | nil => simp [monSet, monLookup]
  | cons hd tl ih =>
      obtain ⟨k', v'⟩ := hd
      by_cases h : k' = k <;> simp [monSet, monLookup, h, ih]

theorem chanGet_chanSet (l : List (String × List (String × ℚ))) (c : String)
    (v : List (String × ℚ)) : chanGet (chanSet l c v) c = v := by
  induction l with
  | nil => simp [chanSet, chanGet]
  | cons hd tl ih =>
      obtain ⟨c', v'⟩ := hd
      by_cases h : c' = c <;> simp [chanSet, chanGet, h, ih]

/-! ## Claim theorems -/

/-- C1: BUY with entry reference 100 and a live quote: quote 99 gives a
stop order with trigger 100.1 and limit 101.5; quote 100.5 gives a LIMIT
order at 100.55; quote 100.05 raises the waiting condition and quote 102
the pullback condition, each caught by the outer handler and surfaced as
a failure tuple. -/
theorem buy_entry_pricing_at_100 :
    smartEntry .buy 100 99 = .slOrder (100.1 : ℚ) (101.5 : ℚ)
    ∧ smartEntry .buy 100 (100.5 : ℚ) = .limitOrder (100.55 : ℚ)
    ∧ smartEntry .buy 100 (100.05 : ℚ) = .raised .waiting
    ∧ smartEntry .buy 100 102 = .raised .pullback
    ∧ executeEntryStep .buy 100 99 = .placed (.slOrder (100.1 : ℚ) (101.5 : ℚ))
    ∧ executeEntryStep .buy 100 (100.5 : ℚ) = .placed (.limitOrder (100.55 : ℚ))
    ∧ executeEntryStep .buy 100 (100.05 : ℚ) = .failureTuple .waiting
    ∧ executeEntryStep .buy 100 102 = .failureTuple .pullback := by
  refine ⟨?_, ?_, ?_, ?_, ?_, ?_, ?_, ?_⟩ <;>
    norm_num [smartEntry, executeEntryStep, min_entry_tolerance, max_entry_tolerance]

/-- C2 counterexample: for SELL, entry 100, quote 101 (above entry), the
claimed mirrored stop order (trigger 99.9, limit 98.5) is NOT produced:
the SELL branch evaluates the unbound `entry_tolerance` and dies with a
NameError. -/
theorem sell_entry_not_mirrored :
    smartEntry .sell 100 101 ≠ .slOrder (99.9 : ℚ) (98.5 : ℚ)
    ∧ smartEntry .sell 100 101 = .raised .nameErrorEntryTolerance := by
  refine ⟨?_, rfl⟩
  simp [smartEntry]

/-- C2 amended: every SELL entry-pricing decision taken with a live
quote raises the NameError on the undefined `entry_tolerance`, which the
outer handler of `execute_signal` catches and surfaces as a failure
tuple; no SELL stop, limit, waiting or pullback outcome is ever
produced by this path. -/
theorem sell_entry_always_name_error (entry_price current_ltp : ℚ) :
    smartEntry .sell entry_price current_ltp = .raised .nameErrorEntryTolerance
    ∧ executeEntryStep .sell entry_price current_ltp
      = .failureTuple .nameErrorEntryTolerance := by
  exact ⟨rfl, rfl⟩

/-- C3 counterexample: `add_position` on a SELL signal with targets
[80, 90] stores final_target 90 (the maximum), not min(targets) = 80 as
claimed for SELL positions. -/
theorem final_target_sell_counterexample :
    (monLookup (add_position { active_positions := [], position_history := [] }
        "OID1" "OPT" "NFO" "SELL" 1 100 95 [80, 90] "aravind" "MIS").active_positions
        "OID1").map Position.final_target = some (some 90)
    ∧ min (80:ℚ) 90 ≠ 90 := by
  constructor
  · simp [add_position, monSet, monLookup, List.max?]
    norm_num
  · norm_num

/-- C3 amended: `add_position` stores final_target = max(targets)
(`none` for an empty list) irrespective of the action, and the startup
restore stores the LAST recovered target (0 when the list is empty). -/
theorem final_target_amended (m : MonitorState) (oid sym exch act : String)
    (q : Int) (ep sl : ℚ) (targets : List ℚ) (u pr : String) :
    (monLookup (add_position m oid sym exch act q ep sl targets u pr).active_positions
        oid).map Position.final_target = some targets.max?
    ∧ restoreFinalTarget targets = (targets.getLast?).getD 0 := by
  constructor
  · simp [add_position, monLookup_monSet]
  · cases h : targets.getLast? <;> simp [restoreFinalTarget, h]

/-- C4 counterexample: with a signal-embedded SL of 95 and a live open
protective order with trigger 90, the restore recovers 90 (the live
order trigger), not the signal-embedded 95 that the claimed priority
order (signal SL first) dictates. -/
theorem recover_sl_counterexample :
    recoverSL 95 0 true 90 false 0 100 true = 90
    ∧ recoverSL 95 0 true 90 false 0 100 true ≠ 95 := by
  constructor <;> norm_num [recoverSL]

/-- C4 amended: the recovered stop loss follows the priority order
live open protective order trigger FIRST, then (only when no live open
protective order exists) the most recent historical protective order
trigger, then the signal-embedded SL, then the 10%-of-entry fallback. -/
theorem recover_sl_priority_amended (sSl sSl2 : ℚ) (aP : Bool) (aT : ℚ)
    (hP : Bool) (hT : ℚ) (avg : ℚ) (lg : Bool) :
    recoverSL sSl sSl2 aP aT hP hT avg lg
      = recoverSLPriority sSl sSl2 aP aT hP hT avg lg := by
  cases aP <;> cases hP <;> cases lg <;>
    simp [recoverSL, recoverSLPriority] <;> split_ifs <;> tauto

/-- C5 counterexample: `execute_signal` mutates the caller-supplied
signal dict before any gate: a BUY signal with price 100 and no SL gets
an auto-computed stop loss of 90 written into it. -/
theorem signal_mutation_counterexample :
    executeSignalNormalize
      { action := some "BUY", symbol := some "RELIANCE", strike := none,
        option_type := none, price := some 100, sl := none,
        tgt := some "2450", targets := ["2450"], condition := some "@" }
      ≠ { action := some "BUY", symbol := some "RELIANCE", strike := none,
          option_type := none, price := some 100, sl := none,
          tgt := some "2450", targets := ["2450"], condition := some "@" }
    ∧ (executeSignalNormalize
        { action := some "BUY", symbol := some "RELIANCE", strike := none,
          option_type := none, price := some 100, sl := none,
          tgt := some "2450", targets := ["2450"], condition := some "@" }).sl
      = some 90 := by
  have h : (executeSignalNormalize
      { action := some "BUY", symbol := some "RELIANCE", strike := none,
        option_type := none, price := some 100, sl := none,
        tgt := some "2450", targets := ["2450"], condition := some "@" }).sl
      = some 90 := by
    simp [executeSignalNormalize, (by decide : pyUpper "BUY" = "BUY")]
    norm_num [pythonRound1_ninety]
  refine ⟨fun hc => ?_, h⟩
  rw [hc] at h
  simp at h

/-- C5 amended: `execute_signal` changes the caller-supplied signal
only through its two entry normalisation steps - inferring action BUY
for an action-less option signal and writing the auto-computed 10% stop
loss when sl is absent and a price is present; every other field is left
untouched, and a signal needing neither step passes through unchanged. -/
theorem signal_mutation_amended (s : Signal) :
    ((executeSignalNormalize s).symbol = s.symbol
      ∧ (executeSignalNormalize s).strike = s.strike
      ∧ (executeSignalNormalize s).option_type = s.option_type
      ∧ (executeSignalNormalize s).price = s.price
      ∧ (executeSignalNormalize s).tgt = s.tgt
      ∧ (executeSignalNormalize s).targets = s.targets
      ∧ (executeSignalNormalize s).condition = s.condition)
    ∧ ((s.action ≠ none ∨ (s.option_type ≠ some "CE" ∧ s.option_type ≠ some "PE"))
        → (s.sl ≠ none ∨ s.price = none)
        → executeSignalNormalize s = s) := by
  obtain ⟨a, sy, st, ot, pr, sl, tg, ts, cond⟩ := s
  constructor
  · cases sl <;> cases pr <;>
      simp [executeSignalNormalize] <;> split_ifs <;> simp
  · intro h1 h2
    simp only at h1 h2
    have hcond : ¬(a = none ∧ (ot = some "CE" ∨ ot = some "PE")) := by tauto
    cases sl with
    | some v => simp [executeSignalNormalize, hcond]
    | none =>
        cases pr with
        | some v => simp at h2
        | none => simp [executeSignalNormalize, hcond]

/-- C5 witness: a signal that already carries an action and a stop loss
passes through the head of `execute_signal` unchanged. -/
theorem signal_mutation_amended_witness :
    executeSignalNormalize
      { action := some "SELL", symbol := some "RELIANCE", strike := none,
        option_type := none, price := some 2400, sl := some 2380,
        tgt := some "2300", targets := ["2300"], condition := some "@" }
      = { action := some "SELL", symbol := some "RELIANCE", strike := none,
          option_type := none, price := some 2400, sl := some 2380,
          tgt := some "2300", targets := ["2300"], condition := some "@" } :=
  (signal_mutation_amended
    { action := some "SELL", symbol := some "RELIANCE", strike := none,
      option_type := none, price := some 2400, sl := some 2380,
      tgt := some "2300", targets := ["2300"], condition := some "@" }).2
    (by simp) (by simp)

/-- C6: with auto-execution enabled and both confidences at or above
the threshold, the first of two same-hash signals on one channel passes
all gates; a second within the duplicate window is rejected with
"Duplicate signal", while a second arriving once the window has elapsed
is not rejected as a duplicate. -/
theorem duplicate_window_gate (st : ExecServiceState) (channel : String)
    (s1 s2 : Signal) (c1 c2 t1 t2 : ℚ)
    (hen : st.enabled = true)
    (hc1 : st.confidence_threshold ≤ c1)
    (hc2 : st.confidence_threshold ≤ c2)
    (hch : chanGet st.recent_signals channel = [])
    (hh : generate_signal_hash s1 = generate_signal_hash s2) :
    (executeSignalGate st channel s1 c1 t1).1 = none
    ∧ (t2 - t1 < st.duplicate_window →
        (executeSignalGate (executeSignalGate st channel s1 c1 t1).2 channel s2 c2 t2).1
          = some "Duplicate signal")
    ∧ (st.duplicate_window ≤ t2 - t1 →
        (executeSignalGate (executeSignalGate st channel s1 c1 t1).2 channel s2 c2 t2).1
          ≠ some "Duplicate signal") := by
  have h1 : executeSignalGate st channel s1 c1 t1
      = (none,
         { st with
           recent_signals := chanSet st.recent_signals channel
             [(generate_signal_hash s1, t1)] }) := by
    simp [executeSignalGate, is_duplicate, hen, hch, not_lt.mpr hc1]
  refine ⟨by rw [h1], ?_, ?_⟩
  · intro hwin
    rw [h1]
    simp [executeSignalGate, is_duplicate, hen, not_lt.mpr hc2,
      chanGet_chanSet, hwin, hh]
  · intro hwin
    rw [h1]
    simp [executeSignalGate, is_duplicate, hen, not_lt.mpr hc2,
      chanGet_chanSet, not_lt.mpr hwin]

/-- C6 witness: concrete run - window 5 s, first signal at t=0, a
duplicate at t=3 is rejected, the same signal at t=7 is not. -/
theorem duplicate_window_gate_witness :
    (executeSignalGate
        { enabled := true, confidence_threshold := 7/10, duplicate_window := 5,
          recent_signals := [] } "chanA"
        { action := some "BUY", symbol := some "NIFTY", strike := some "26000",
          option_type := some "CE", price := some 150, sl := some 120,
          tgt := some "200", targets := ["200"], condition := none } 1 0).1 = none
    ∧ (executeSignalGate
        (executeSignalGate
          { enabled := true, confidence_threshold := 7/10, duplicate_window := 5,
            recent_signals := [] } "chanA"
          { action := some "BUY", symbol := some "NIFTY", strike := some "26000",
            option_type := some "CE", price := some 150, sl := some 120,
            tgt := some "200", targets := ["200"], condition := none } 1 0).2 "chanA"
        { action := some "BUY", symbol := some "NIFTY", strike := some "26000",
          option_type := some "CE", price := some 150, sl := some 120,
          tgt := some "200", targets := ["200"], condition := none } 1 3).1
      = some "Duplicate signal"
    ∧ (executeSignalGate
        (executeSignalGate
          { enabled := true, confidence_threshold := 7/10, duplicate_window := 5,
            recent_signals := [] } "chanA"
          { action := some "BUY", symbol := some "NIFTY", strike := some "26000",
            option_type := some "CE", price := some 150, sl := some 120,
            tgt := some "200", targets := ["200"], condition := none } 1 0).2 "chanA"
        { action := some "BUY", symbol := some "NIFTY", strike := some "26000",
          option_type := some "CE", price := some 150, sl := some 120,
          tgt := some "200", targets := ["200"], condition := none } 1 7).1
      ≠ some "Duplicate signal" := by
  obtain ⟨a, b, c⟩ := duplicate_window_gate
    { enabled := true, confidence_threshold := 7/10, duplicate_window := 5,
      recent_signals := [] } "chanA"
    { action := some "BUY", symbol := some "NIFTY", strike := some "26000",
      option_type := some "CE", price := some 150, sl := some 120,
      tgt := some "200", targets := ["200"], condition := none }
    { action := some "BUY", symbol := some "NIFTY", strike := some "26000",
      option_type := some "CE", price := some 150, sl := some 120,
      tgt := some "200", targets := ["200"], condition := none }
    1 1 0 3 rfl (by norm_num) (by norm_num) rfl rfl
  obtain ⟨_, _, c'⟩ := duplicate_window_gate
    { enabled := true, confidence_threshold := 7/10, duplicate_window := 5,
      recent_signals := [] } "chanA"
    { action := some "BUY", symbol := some "NIFTY", strike := some "26000",
      option_type := some "CE", price := some 150, sl := some 120,
      tgt := some "200", targets := ["200"], condition := none }
    { action := some "BUY", symbol := some "NIFTY", strike := some "26000",
      option_type := some "CE", price := some 150, sl := some 120,
      tgt := some "200", targets := ["200"], condition := none }
    1 1 0 7 rfl (by norm_num) (by norm_num) rfl rfl
  exact ⟨a, b (by norm_num), c' (by norm_num)⟩

/-- C7 counterexample: `update_highest_price` returns False for an
EXISTING position when the quoted price is not a new high, refuting
"returns True if and only if the order_id exists". -/
theorem mutator_return_counterexample :
    (update_highest_price
        (add_position { active_positions := [], position_history := [] }
          "A" "SYM" "NSE" "BUY" 1 100 95 [110] "aravind" "MIS") "A" 50).1 = false
    ∧ monLookup
        (add_position { active_positions := [], position_history := [] }
          "A" "SYM" "NSE" "BUY" 1 100 95 [110] "aravind" "MIS").active_positions
        "A" ≠ none := by
  constructor
  · simp [update_highest_price, add_position, monSet, monLookup]
    norm_num
  · simp [add_position, monSet, monLookup]

/-- C7 amended: every listed mutator EXCEPT `update_highest_price`
returns True exactly when the order id is known; `update_highest_price`
returns True exactly when the id is known AND the price strictly
exceeds the stored high.  On an unknown id every mutator returns False
and leaves the whole monitor state (active map and history) unchanged;
all are total functions, so no exception can escape. -/
theorem mutators_amended (m : MonitorState) (oid : String)
    (new_sl : ℚ) (slid : Option String) (nt : ℚ) (tgts : List ℚ)
    (stat : String) (sloid : String) (price : ℚ) (nq : Int)
    (flag : TargetFlag) (b : Bool) :
    ((update_sl m oid new_sl slid).1 = (monLookup m.active_positions oid).isSome
      ∧ (update_target m oid nt).1 = (monLookup m.active_positions oid).isSome
      ∧ (update_targets m oid tgts).1 = (monLookup m.active_positions oid).isSome
      ∧ (update_status m oid stat).1 = (monLookup m.active_positions oid).isSome
      ∧ (update_sl_order_id m oid sloid).1 = (monLookup m.active_positions oid).isSome
      ∧ (update_remaining_quantity m oid nq).1 = (monLookup m.active_positions oid).isSome
      ∧ (mark_t1_exit_done m oid).1 = (monLookup m.active_positions oid).isSome
      ∧ (set_target_hit_flag m oid flag b).1 = (monLookup m.active_positions oid).isSome
      ∧ (disable_trailing m oid).1 = (monLookup m.active_positions oid).isSome
      ∧ (enable_trailing m oid).1 = (monLookup m.active_positions oid).isSome)
    ∧ ((update_highest_price m oid price).1 = true ↔
        ∃ p, monLookup m.active_positions oid = some p ∧ p.highest_price < price)
    ∧ (monLookup m.active_positions oid = none →
        update_sl m oid new_sl slid = (false, m)
        ∧ update_target m oid nt = (false, m)
        ∧ update_targets m oid tgts = (false, m)
        ∧ update_status m oid stat = (false, m)
        ∧ update_sl_order_id m oid sloid = (false, m)
        ∧ update_highest_price m oid price = (false, m)
        ∧ update_remaining_quantity m oid nq = (false, m)
        ∧ mark_t1_exit_done m oid = (false, m)
        ∧ set_target_hit_flag m oid flag b = (false, m)
        ∧ disable_trailing m oid = (false, m)
        ∧ enable_trailing m oid = (false, m)) := by
  cases h : monLookup m.active_positions oid with
  | none =>
      simp [update_sl, update_target, update_targets, update_status,
        update_sl_order_id, update_highest_price, update_remaining_quantity,
        mark_t1_exit_done, set_target_hit_flag, disable_trailing,
        enable_trailing, h]
  | some p =>
      refine ⟨?_, ?_, by simp [h]⟩
      · simp [update_sl, update_target, update_targets, update_status,
          update_sl_order_id, update_remaining_quantity,
          mark_t1_exit_done, set_target_hit_flag, disable_trailing,
          enable_trailing, h]
      · by_cases hp : p.highest_price < price <;>
          simp [update_highest_price, h, hp]

/-- C7 witness: a monitor with one position "A" (entry 100): `update_sl`
on "A" returns True, `update_sl` on the unknown id "B" returns False
and changes nothing, and `update_highest_price` on "A" at 150 returns
True. -/
theorem mutators_amended_witness :
    (update_sl (add_position { active_positions := [], position_history := [] }
        "A" "SYM" "NSE" "BUY" 1 100 95 [110] "aravind" "MIS") "A" 97 none).1 = true
    ∧ update_sl (add_position { active_positions := [], position_history := [] }
        "A" "SYM" "NSE" "BUY" 1 100 95 [110] "aravind" "MIS") "B" 97 none
      = (false, add_position { active_positions := [], position_history := [] }
          "A" "SYM" "NSE" "BUY" 1 100 95 [110] "aravind" "MIS")
    ∧ (update_highest_price
        (add_position { active_positions := [], position_history := [] }
          "A" "SYM" "NSE" "BUY" 1 100 95 [110] "aravind" "MIS") "A" 150).1 = true := by
  refine ⟨?_, ?_, ?_⟩
  · have := (mutators_amended
      (add_position { active_positions := [], position_history := [] }
        "A" "SYM" "NSE" "BUY" 1 100 95 [110] "aravind" "MIS") "A"
      97 none 0 [] "" "" 0 0 .t1 true).1.1
    rw [this]
    simp [add_position, monSet, monLookup]
  · exact ((mutators_amended
      (add_position { active_positions := [], position_history := [] }
        "A" "SYM" "NSE" "BUY" 1 100 95 [110] "aravind" "MIS") "B"
      97 none 0 [] "" "" 0 0 .t1 true).2.2
        (by simp [add_position, monSet, monLookup])).1
  · exact (mutators_amended
      (add_position { active_positions := [], position_history := [] }
        "A" "SYM" "NSE" "BUY" 1 100 95 [110] "aravind" "MIS") "A"
      97 none 0 [] "" "" 150 0 .t1 true).2.1.mpr
      ⟨_, rfl, by norm_num⟩

/-- C8: `add_position` creates a pending_open position with no close
stamp; `remove_position` on a live id removes it from the active map,
returns and archives the position stamped with status = reason and a
non-null closed_at, keeps the history within the 100-entry bound with
oldest-first eviction, and a second removal of the same id is a no-op
returning None. -/
theorem position_lifecycle (m : MonitorState) (oid sym exch act : String)
    (q : Int) (ep sl : ℚ) (targets : List ℚ) (u pr : String)
    (reason : String) (now : ℚ) (p : Position) :
    ((monLookup (add_position m oid sym exch act q ep sl targets u pr).active_positions
        oid).map Position.status = some "pending_open")
    ∧ ((monLookup (add_position m oid sym exch act q ep sl targets u pr).active_positions
        oid).map Position.closed_at = some none)
    ∧ ((m.active_positions.map Prod.fst).Nodup →
        monLookup m.active_positions oid = some p →
        (remove_position m oid reason now).1
            = some { p with status := reason, closed_at := some now }
        ∧ monLookup (remove_position m oid reason now).2.active_positions oid = none
        ∧ { p with status := reason, closed_at := some now }
            ∈ (remove_position m oid reason now).2.position_history
        ∧ (m.position_history.length ≤ 100 →
            (remove_position m oid reason now).2.position_history.length ≤ 100)
        ∧ (m.position_history.length < 100 →
            (remove_position m oid reason now).2.position_history
              = m.position_history ++ [{ p with status := reason, closed_at := some now }])
        ∧ (m.position_history.length = 100 →
            (remove_position m oid reason now).2.position_history
              = m.position_history.drop 1
                  ++ [{ p with status := reason, closed_at := some now }]))
    ∧ (monLookup m.active_positions oid = none →
        remove_position m oid reason now = (none, m)) := by
  refine ⟨by simp [add_position, monLookup_monSet],
          by simp [add_position, monLookup_monSet], ?_, ?_⟩
  · intro hnd hp
    simp only [remove_position, hp, List.length_append, List.length_cons,
      List.length_nil, gt_iff_lt]
    refine ⟨by trivial, monLookup_monRemove m.active_positions oid hnd, ?_, ?_, ?_, ?_⟩
    · by_cases hc : 100 < m.position_history.length + (0 + 1)
      · rw [if_pos hc, List.drop_append_of_le_length (by omega)]
        exact List.mem_append_right _ (List.mem_singleton_self _)
      · rw [if_neg hc]
        exact List.mem_append_right _ (List.mem_singleton_self _)
    · intro hb
      by_cases hc : 100 < m.position_history.length + (0 + 1)
      · rw [if_pos hc]
        simp only [List.length_drop, List.length_append, List.length_cons,
          List.length_nil]
        omega
      · rw [if_neg hc]
        simp only [List.length_append, List.length_cons, List.length_nil]
        omega
    · intro hb
      rw [if_neg (by omega)]
    · intro hb
      rw [if_pos (by omega), List.drop_append_of_le_length (by omega)]
  · intro h
    simp [remove_position, h]

/-- C8 witness: add "A", activate it, remove it with reason sl_hit at
time 5: it leaves the active map, lands in history with status sl_hit
and closed_at 5, and a second removal is a no-op returning None. -/
theorem position_lifecycle_witness :
    ((monLookup (add_position { active_positions := [], position_history := [] }
        "A" "S" "NSE" "BUY" 1 100 90 [110] "u" "MIS").active_positions
        "A").map Position.status = some "pending_open")
    ∧ (((remove_position
          (update_status (add_position { active_positions := [], position_history := [] }
            "A" "S" "NSE" "BUY" 1 100 90 [110] "u" "MIS") "A" "active").2
          "A" "sl_hit" 5).1).map Position.status = some "sl_hit")
    ∧ (((remove_position
          (update_status (add_position { active_positions := [], position_history := [] }
            "A" "S" "NSE" "BUY" 1 100 90 [110] "u" "MIS") "A" "active").2
          "A" "sl_hit" 5).1).map Position.closed_at = some (some 5))
    ∧ monLookup (remove_position
          (update_status (add_position { active_positions := [], position_history := [] }
            "A" "S" "NSE" "BUY" 1 100 90 [110] "u" "MIS") "A" "active").2
          "A" "sl_hit" 5).2.active_positions "A" = none
    ∧ remove_position (remove_position
          (update_status (add_position { active_positions := [], position_history := [] }
            "A" "S" "NSE" "BUY" 1 100 90 [110] "u" "MIS") "A" "active").2
          "A" "sl_hit" 5).2 "A" "sl_hit" 6
      = (none, (remove_position
          (update_status (add_position { active_positions := [], position_history := [] }
            "A" "S" "NSE" "BUY" 1 100 90 [110] "u" "MIS") "A" "active").2
          "A" "sl_hit" 5).2) := by
  obtain ⟨-, -, hmain, -⟩ := position_lifecycle
    (update_status (add_position { active_positions := [], position_history := [] }
      "A" "S" "NSE" "BUY" 1 100 90 [110] "u" "MIS") "A" "active").2
    "A" "S" "NSE" "BUY" 1 100 90 [110] "u" "MIS" "sl_hit" 5 _
  obtain ⟨h1, h2, -, -, -, -⟩ := hmain (by simp [add_position, update_status,
    monSet, monLookup]) rfl
  obtain ⟨-, -, -, hnoop⟩ := position_lifecycle
    (remove_position
      (update_status (add_position { active_positions := [], position_history := [] }
        "A" "S" "NSE" "BUY" 1 100 90 [110] "u" "MIS") "A" "active").2
      "A" "sl_hit" 5).2
    "A" "S" "NSE" "BUY" 1 100 90 [110] "u" "MIS" "sl_hit" 6 dummyPosition
  refine ⟨?_, ?_, ?_, h2, hnoop h2⟩
  · exact (position_lifecycle { active_positions := [], position_history := [] }
      "A" "S" "NSE" "BUY" 1 100 90 [110] "u" "MIS" "sl_hit" 5 dummyPosition).1
  · rw [h1]
    rfl
  · rw [h1]
    rfl

set_option maxRecDepth 8000 in
theorem classifyExample_score : classifyScore exampleMessage = 58 := by
  decide

set_option maxRecDepth 8000 in
theorem classifyExample_extracted :
    extractSignalData exampleMessage (actionFound (pyLower exampleMessage).data)
      = exampleExtracted := by
  decide

theorem classifyExample_eval :
    classify exampleMessage
      = { is_signal := true, confidence := 1, extracted := some exampleExtracted } := by
  have hsig : initialIsSignal 58 = true := by
    unfold initialIsSignal classifierConfidence
    rw [decide_eq_true_eq]
    exact ⟨by norm_num, le_min (by norm_num) (le_max_of_le_right (by norm_num))⟩
  have hconf : classifierConfidence 58 = 1 := by
    unfold classifierConfidence
    rw [max_eq_right (by norm_num), min_eq_left (by norm_num)]
  simp only [classify, classifyExample_score, hsig, hconf, if_true,
    classifyExample_extracted]
  rfl

/-- C9 counterexample: on the example text classify does return a
signal, but the extracted structure is NOT the claimed seven-field dict:
the code also stores strike = "2400" and stop_loss = "2380", and its
tgt is the string "2450.0" (a Python float rendering), not "2450". -/
theorem classify_example_counterexample :
    (classify exampleMessage).extracted ≠ some claimedExtracted
    ∧ (classify exampleMessage).is_signal = true := by
  rw [classifyExample_eval]
  exact ⟨by decide, rfl⟩

/-- C9 amended: on input "BUY RELIANCE @ 2400 SL 2380 TGT 2450" the
classifier returns is_signal true with confidence 1 and extracted =
{action: BUY, symbol: RELIANCE, strike: "2400", price: "2400",
condition: "@", sl: "2380", stop_loss: "2380", targets: ["2450"],
tgt: "2450.0"} - the claimed fields plus strike and stop_loss, with tgt
rendered as "2450.0". -/
theorem classify_example_amended :
    classify exampleMessage
      = { is_signal := true, confidence := 1, extracted := some exampleExtracted } :=
  classifyExample_eval

/-- C10: the confidence conjunct of the pre-quality-gate decision is
redundant - for every raw integer score, `score >= 20` already forces
`confidence >= 0.5`, so the initial is_signal decision holds exactly
when score >= 20. -/
theorem initial_is_signal_iff_score (score : ℤ) :
    (initialIsSignal score = true ↔ score ≥ 20)
    ∧ (score ≥ 20 → classifierConfidence score ≥ 1/2) := by
  have key : score ≥ 20 → classifierConfidence score ≥ 1/2 := by
    intro h
    unfold classifierConfidence
    have h1 : (20:ℚ) ≤ (score:ℚ) := by exact_mod_cast h
    have h2 : (1:ℚ)/2 ≤ (score:ℚ)/35 := by linarith
    exact le_min (by norm_num) (le_max_of_le_right h2)
  refine ⟨?_, key⟩
  unfold initialIsSignal
  simp only [decide_eq_true_eq]
  exact ⟨fun h => h.1, fun h => ⟨h, key h⟩⟩

/-- C10 witness: at the concrete score 58 (the example text) the
decision holds and the confidence clears the bar. -/
theorem initial_is_signal_iff_score_witness :
    initialIsSignal 58 = true ∧ classifierConfidence 58 ≥ 1/2 :=
  ⟨(initial_is_signal_iff_score 58).1.mpr (by norm_num),
   (initial_is_signal_iff_score 58).2 (by norm_num)⟩

end OpenAlgo
